import Mathlib

/-!
# Aqarions front end: `Src/App.jsx`

A shallow embedding of the single React component `App`:

* `fetchGraph` (lines 11-15) is an async function; it is embedded as a value of
  `Async`, a program suspended at its next effect (`await axios.get`, `setGraph`).
* the mounting effect (lines 17-34), its `animate` loop and its cleanup are
  embedded as functions on the component state `App`.
* the effect on `[graph]` (lines 36-38) is embedded as `graphEffect`.

`axios.get` is a library call: its outcome (resolve with a response, reject with an
error) is a parameter of every run.
-/

namespace Aqarions

/-! ## Data -/

/-- JSON values as `axios` hands them over in `response.data`. Numbers are the
integer-valued ones; no claim depends on a fractional number. -/
inductive Json where
  | null
  | bool (b : Bool)
  | num (n : Int)
  | str (s : String)
  | arr (items : List Json)
  | obj (fields : List (String × Json))

/-- Elements of a JSON array; any other value has none. -/
def Json.items : Json → List Json
  | .arr xs => xs
  | _ => []

/-- Property access `record[key]` on a JSON object. -/
def Json.field? (key : String) : Json → Option Json
  | .obj fields => (fields.find? (fun kv => kv.1 == key)).map (fun kv => kv.2)
  | _ => none

/-- The record carries an `id` field. -/
def hasId (record : Json) : Bool := (record.field? "id").isSome

/-- Some record of the node list has no `id` field. -/
def missingId (data : Json) : Bool := data.items.any (fun r => !hasId r)

/-- Identifiers of the records of a node list. -/
def nodeIds (data : Json) : List Json := data.items.filterMap (Json.field? "id")

/-- The value held by `useState` on line 9: `{ nodes, links }`. `nodes` is whatever
the node-list endpoint answered; `links` is a JS array. -/
structure Graph where
  nodes : Json
  links : List Json

/-- Line 9: `useState({ nodes: [], links: [] })`. -/
def Graph.empty : Graph := { nodes := .arr [], links := [] }

/-- What `axios.get` resolves with; only `.data` is read by the component. -/
structure Response where
  data : Json

/-- What `axios.get` rejects with: a network failure has no status, an answer
outside 2xx carries it. -/
structure AxiosError where
  status : Option Nat
  message : String

/-- Exceptions the component can raise: a rejection of `axios.get`, or the
`TypeError` of reading a property of `null`. -/
inductive JsError where
  | axios (e : AxiosError)
  | typeError

/-- A visual primitive of the scene (a child of `THREE.Scene`): a node mesh with
its identifier and position, or a link between two node identifiers. -/
inductive Primitive where
  | node (id : Json) (x y z : Json)
  | link (source target : Json)

/-- The primitive is a node mesh. -/
def Primitive.isNode : Primitive → Bool
  | .node .. => true
  | .link .. => false

/-- The primitive is a link. -/
def Primitive.isLink : Primitive → Bool
  | .node .. => false
  | .link .. => true

/-- `THREE.Scene`: the list of objects added to it. -/
structure Scene where
  children : List Primitive

/-- The operands of the quotient `clientWidth / clientHeight` passed to the camera.
The double-precision division itself is not evaluated. -/
structure Aspect where
  width : Nat
  height : Nat
deriving DecidableEq

/-- `THREE.PerspectiveCamera(75, aspect, 0.1, 1000)` with `position.z = 20`.
The near plane `0.1` is a constant not used by any property below. -/
structure Camera where
  fov : Nat
  aspect : Aspect
  far : Nat
  positionZ : Nat
deriving DecidableEq

/-- `THREE.WebGLRenderer`: the size given to `setSize`. -/
structure Renderer where
  width : Nat
  height : Nat
deriving DecidableEq

/-- The container `div` behind `mountRef.current`: its client size and whether the
renderer's canvas is one of its children. -/
structure Element where
  clientWidth : Nat
  clientHeight : Nat
  hasCanvas : Bool
deriving DecidableEq

/-- The variables the mounting effect closes over (lines 20-23). -/
structure Surface where
  scene : Scene
  camera : Camera
  renderer : Renderer

/-- One call of `renderer.render(scene, camera)`: what was drawn, on which surface
size and camera aspect, together with the state of the container at that moment
and whether the cleanup had already run. -/
structure Frame where
  width : Nat
  height : Nat
  aspect : Aspect
  children : List Primitive
  container : Option Element
  disposed : Bool

/-- An async function suspended at its next effect. -/
inductive Async where
  | ret : Async
  | awaitGet (url : String) (k : Response → Async) : Async
  | setGraph (g : Graph) (k : Async) : Async

/-- A request in flight together with the code waiting for its response. -/
structure Pending where
  url : String
  k : Response → Async

/-- State of one mounted instance of the component. -/
structure App where
  graph : Graph
  mountRef : Option Element
  surface : Option Surface
  scheduled : Bool
  frames : List Frame
  disposed : Bool
  inflight : List Pending
  errors : List JsError

/-! ## The component -/

/-- Line 5. -/
def API : String := "http://localhost:8000/api/nodes/"

/-- Lines 11-15. -/
def fetchGraph : Async :=
  .awaitGet (API ++ "generate_graph/") fun _res =>
  .awaitGet API fun nodesRes =>
  .setGraph { nodes := nodesRes.data, links := [] } .ret

/-- Lines 36-38: the effect on `[graph]`; its body is the comment `// render nodes`. -/
def graphEffect (s : App) : App := s

/-- State setter of line 9 called with a value: the state is replaced, the component
re-renders and the effect depending on `[graph]` runs. -/
def setGraph (g : Graph) (s : App) : App := graphEffect { s with graph := g }

/-- Line 29: `renderer.render(scene, camera)` draws the scene on the surface as it was
sized; the frame also records the container and the cleanup flag of that moment. -/
def render (surf : Surface) (container : Option Element) (disposed : Bool) : Frame :=
  { width := surf.renderer.width
    height := surf.renderer.height
    aspect := surf.camera.aspect
    children := surf.scene.children
    container := container
    disposed := disposed }

/-- Lines 27-30: `animate` asks for the next animation frame and renders once. -/
def animate (s : App) : App :=
  match s.surface with
  | none => s
  | some surf =>
    { s with scheduled := true, frames := s.frames ++ [render surf s.mountRef s.disposed] }

/-- Lines 17-31: the mounting effect. Without a container it returns at once. -/
def mountEffect (s : App) : App :=
  match s.mountRef with
  | none => s
  | some el =>
    animate { s with
      surface := some { scene := { children := [] }
                        camera := { fov := 75
                                    aspect := { width := el.clientWidth, height := el.clientHeight }
                                    far := 1000
                                    positionZ := 20 }
                        renderer := { width := el.clientWidth, height := el.clientHeight } }
      mountRef := some { el with hasCanvas := true } }

/-- Line 33: the cleanup returned by the mounting effect. It exists only when the
effect got past its guard; reading `mountRef.current` when it is `null` throws. -/
def cleanup (s : App) : App :=
  match s.surface with
  | none => s
  | some _ =>
    match s.mountRef with
    | none => { s with disposed := true, errors := s.errors ++ [.typeError] }
    | some el => { s with disposed := true, mountRef := some { el with hasCanvas := false } }

/-- The component before its effects have run. -/
def App.init (ref : Option Element) : App :=
  { graph := Graph.empty, mountRef := ref, surface := none, scheduled := false
    frames := [], disposed := false, inflight := [], errors := [] }

/-- The component after its first render: both effects have run, in source order. -/
def App.start (ref : Option Element) : App := graphEffect (mountEffect (App.init ref))

/-! ## Running `fetchGraph` -/

/-- Result of running an async function to completion. -/
structure Outcome where
  result : Except JsError Unit
  app : App
  requests : List String

/-- Runs an async function to completion; `http url` is what `axios.get(url)` settles
with. A rejected `await` rejects the function, since the source has no `try`. The
requests issued are logged in order. -/
def Async.run (http : String → Except AxiosError Response) : Async → App → List String → Outcome
  | .ret, s, log => { result := .ok (), app := s, requests := log }
  | .awaitGet url k, s, log =>
    match http url with
    | .ok r => Async.run http (k r) s (log ++ [url])
    | .error e => { result := .error (.axios e), app := s, requests := log ++ [url] }
  | .setGraph g k, s, log => Async.run http k (Aqarions.setGraph g s) log

/-! ## The event loop -/

/-- Runs an async function until it suspends on a request or finishes. -/
def advance : Async → App → App
  | .ret, s => s
  | .awaitGet url k, s => { s with inflight := s.inflight ++ [{ url := url, k := k }] }
  | .setGraph g k, s => advance k (setGraph g s)

/-- What can happen to a mounted component. -/
inductive Event where
  | click
  | settle (i : Nat) (r : Except AxiosError Response)
  | frame
  | resize (w h : Nat)
  | refDetach
  | unmount

/-- One turn of the event loop.
* `click`: line 42 calls `fetchGraph`.
* `settle i r`: the `i`-th request in flight settles with `r`.
* `frame`: the browser runs the callback given to `requestAnimationFrame`.
* `resize w h`: the container gets a new client size.
* `refDetach`: React resets `mountRef.current` to `null`.
* `unmount`: React runs the cleanup of the mounting effect, once. -/
def step (s : App) : Event → App
  | .click => advance fetchGraph s
  | .settle i r =>
    match s.inflight.get? i with
    | none => s
    | some p =>
      let s1 := { s with inflight := s.inflight.eraseIdx i }
      match r with
      | .ok resp => advance (p.k resp) s1
      | .error e => { s1 with errors := s1.errors ++ [.axios e] }
  | .frame => if s.scheduled then animate { s with scheduled := false } else s
  | .resize w h =>
    match s.mountRef with
    | none => s
    | some el => { s with mountRef := some { el with clientWidth := w, clientHeight := h } }
  | .refDetach => { s with mountRef := none }
  | .unmount => if s.disposed then s else cleanup s

/-- Runs a sequence of events. -/
def runEvents (s : App) (es : List Event) : App := es.foldl step s

/-- Number of requests in flight to `url`. -/
def inflightTo (url : String) (s : App) : Nat := (s.inflight.filter (fun p => p.url == url)).length

/-- Number of `click` events in a trace, that is of `fetchGraph` invocations. -/
def clicks (es : List Event) : Nat := (es.filter (fun e => match e with | .click => true | _ => false)).length

/-- Objects of the scene, none when no scene was created. -/
def primitives (s : App) : List Primitive :=
  match s.surface with
  | none => []
  | some surf => surf.scene.children

/-- No link primitive of `ps` has an endpoint that is not the identifier of a node
of `g`. -/
def noDanglingLink (ps : List Primitive) (g : Graph) : Prop :=
  ∀ a b, Primitive.link a b ∈ ps → a ∈ nodeIds g.nodes ∧ b ∈ nodeIds g.nodes

/-- Length of a JSON node list. -/
def nodeCount (data : Json) : Nat := data.items.length

end Aqarions

namespace Aqarions

/-! ## Concrete inputs -/

/-- A container of 800 by 600 pixels. -/
def el0 : Element := { clientWidth := 800, clientHeight := 600, hasCanvas := false }

/-- The node list `[{id:1,x:0,y:0,z:0},{id:2,x:5,y:0,z:0}]`. -/
def twoNodes : Json :=
  .arr [.obj [("id", .num 1), ("x", .num 0), ("y", .num 0), ("z", .num 0)],
        .obj [("id", .num 2), ("x", .num 5), ("y", .num 0), ("z", .num 0)]]

/-- A node list whose second record has no `id`. -/
def noIdNodes : Json :=
  .arr [.obj [("id", .num 1), ("x", .num 0)], .obj [("label", .str "orphan"), ("x", .num 5)]]

/-- Every request is answered with status 500. -/
def http500 : String → Except AxiosError Response :=
  fun _ => .error { status := some 500, message := "Request failed with status code 500" }

/-- Every request succeeds with the body `d`. -/
def httpOk (d : Json) : String → Except AxiosError Response := fun _ => .ok { data := d }

/-- The generation request succeeds with body `gen`, the node list with body `d`. -/
def httpBoth (gen d : Json) : String → Except AxiosError Response :=
  fun url => if url = API then .ok { data := d } else .ok { data := gen }

/-! ## `fetchGraph` run to completion -/

/-- A rejected generation request ends the run after one request. -/
theorem run_fetchGraph_gen_error (http : String → Except AxiosError Response) (s : App)
    (log : List String) (e : AxiosError) (h : http (API ++ "generate_graph/") = .error e) :
    fetchGraph.run http s log =
      { result := .error (.axios e), app := s, requests := log ++ [API ++ "generate_graph/"] } := by
  simp [fetchGraph, Async.run, h]

/-- A rejected node-list request ends the run after two requests. -/
theorem run_fetchGraph_nodes_error (http : String → Except AxiosError Response) (s : App)
    (log : List String) (r : Response) (e : AxiosError)
    (hgen : http (API ++ "generate_graph/") = .ok r) (h : http API = .error e) :
    fetchGraph.run http s log =
      { result := .error (.axios e), app := s
        requests := log ++ [API ++ "generate_graph/", API] } := by
  simp [fetchGraph, Async.run, hgen, h]

/-- Two successful requests end in one call of the state setter. -/
theorem run_fetchGraph_ok (http : String → Except AxiosError Response) (s : App)
    (log : List String) (r nodesRes : Response)
    (hgen : http (API ++ "generate_graph/") = .ok r) (h : http API = .ok nodesRes) :
    fetchGraph.run http s log =
      { result := .ok (), app := setGraph { nodes := nodesRes.data, links := [] } s
        requests := log ++ [API ++ "generate_graph/", API] } := by
  simp [fetchGraph, Async.run, hgen, h]

/-- C1: whenever one of the two GETs of `fetchGraph` fails (the generation request, or
the node list after a successful generation request), the run ends in that error and
the component state, its graph included, is exactly the one before the call. -/
theorem fetchGraph_failure_keeps_graph (http : String → Except AxiosError Response) (s : App)
    (log : List String) (e : AxiosError)
    (h : http (API ++ "generate_graph/") = .error e ∨
      ((∃ r, http (API ++ "generate_graph/") = .ok r) ∧ http API = .error e)) :
    (fetchGraph.run http s log).result = .error (.axios e) ∧
    (fetchGraph.run http s log).app.graph = s.graph ∧
    (fetchGraph.run http s log).app = s := by
  rcases h with h | ⟨⟨r, hr⟩, h⟩
  · rw [run_fetchGraph_gen_error http s log e h]; exact ⟨rfl, rfl, rfl⟩
  · rw [run_fetchGraph_nodes_error http s log r e hr h]; exact ⟨rfl, rfl, rfl⟩

/-- The HTTP 500 scenario: the first GET is rejected with status 500. -/
theorem fetchGraph_failure_keeps_graph_witness :
    (fetchGraph.run http500 (App.start (some el0)) []).result =
        .error (.axios { status := some 500, message := "Request failed with status code 500" }) ∧
    (fetchGraph.run http500 (App.start (some el0)) []).app.graph = (App.start (some el0)).graph ∧
    (fetchGraph.run http500 (App.start (some el0)) []).app = App.start (some el0) :=
  fetchGraph_failure_keeps_graph http500 (App.start (some el0)) [] _ (Or.inl rfl)

/-- C2: when both GETs succeed and the node list answers with body `d`, the graph after
`fetchGraph` is `{nodes: d, links: []}`, whatever the graph was before: two runs from
different prior states end with the same graph. -/
theorem fetchGraph_replaces_graph (http : String → Except AxiosError Response) (s s' : App)
    (log log' : List String) (r : Response) (d : Json)
    (hgen : http (API ++ "generate_graph/") = .ok r) (hnodes : http API = .ok { data := d }) :
    (fetchGraph.run http s log).result = .ok () ∧
    (fetchGraph.run http s log).app.graph = { nodes := d, links := [] } ∧
    (fetchGraph.run http s' log').app.graph = (fetchGraph.run http s log).app.graph := by
  rw [run_fetchGraph_ok http s log r _ hgen hnodes, run_fetchGraph_ok http s' log' r _ hgen hnodes]
  exact ⟨rfl, rfl, rfl⟩

/-- Both GETs answer the two-node list, from a mounted and from an unmounted component. -/
theorem fetchGraph_replaces_graph_witness :
    (fetchGraph.run (httpOk twoNodes) (App.start (some el0)) []).result = .ok () ∧
    (fetchGraph.run (httpOk twoNodes) (App.start (some el0)) []).app.graph =
      { nodes := twoNodes, links := [] } ∧
    (fetchGraph.run (httpOk twoNodes) (App.start none) []).app.graph =
      (fetchGraph.run (httpOk twoNodes) (App.start (some el0)) []).app.graph :=
  fetchGraph_replaces_graph (httpOk twoNodes) (App.start (some el0)) (App.start none) [] []
    { data := twoNodes } twoNodes rfl rfl

/-- C3, as stated, fails: the node list `noIdNodes` has a record without `id`, yet the
run of `fetchGraph` resolves without any error and installs that list, id-less record
included, in place of the empty graph. -/
theorem fetchGraph_missing_id_counterexample :
    missingId noIdNodes = true ∧
    (fetchGraph.run (httpOk noIdNodes) (App.start (some el0)) []).result = .ok () ∧
    (fetchGraph.run (httpOk noIdNodes) (App.start (some el0)) []).app.graph =
      { nodes := noIdNodes, links := [] } ∧
    missingId (App.start (some el0)).graph.nodes = false ∧
    missingId (fetchGraph.run (httpOk noIdNodes) (App.start (some el0)) []).app.graph.nodes
      = true :=
  ⟨by decide, rfl, rfl, by decide, by decide⟩

/-- C3, amended: the node list is not validated. For every node-list body `d` in which
some record lacks the identifier field, a run whose two GETs succeed resolves without
error and installs `{nodes: d, links: []}` as it came, so the installed graph holds a
record without `id`. -/
theorem fetchGraph_installs_unvalidated (http : String → Except AxiosError Response) (s : App)
    (log : List String) (r : Response) (d : Json)
    (hgen : http (API ++ "generate_graph/") = .ok r) (hnodes : http API = .ok { data := d })
    (hbad : missingId d = true) :
    (fetchGraph.run http s log).result = .ok () ∧
    (fetchGraph.run http s log).app.graph = { nodes := d, links := [] } ∧
    missingId (fetchGraph.run http s log).app.graph.nodes = true := by
  rw [run_fetchGraph_ok http s log r _ hgen hnodes]
  exact ⟨rfl, rfl, hbad⟩

/-- The node list with an id-less record is installed as it came. -/
theorem fetchGraph_installs_unvalidated_witness :
    (fetchGraph.run (httpOk noIdNodes) (App.init none) []).result = .ok () ∧
    (fetchGraph.run (httpOk noIdNodes) (App.init none) []).app.graph =
      { nodes := noIdNodes, links := [] } ∧
    missingId (fetchGraph.run (httpOk noIdNodes) (App.init none) []).app.graph.nodes = true :=
  fetchGraph_installs_unvalidated (httpOk noIdNodes) (App.init none) [] { data := noIdNodes }
    noIdNodes rfl rfl (by decide)

/-- C10: `fetchGraph` issues its GETs in sequence, gated on success. An invocation puts
exactly one request in flight, to `generate_graph/`. Run to completion, the first
request logged is the one to `generate_graph/`; if it fails, it is the only request; if
it succeeds, the node-list request follows and nothing else; and the body of the
`generate_graph/` response has no influence on the result or the resulting graph. -/
theorem fetchGraph_requests_in_sequence (http : String → Except AxiosError Response) (s : App)
    (log : List String) :
    API ++ "generate_graph/" = "http://localhost:8000/api/nodes/generate_graph/" ∧
    (step s .click).inflight.map (fun p => p.url) =
        s.inflight.map (fun p => p.url) ++ [API ++ "generate_graph/"] ∧
    (∃ rest, (fetchGraph.run http s log).requests = log ++ (API ++ "generate_graph/") :: rest) ∧
    (∀ e, http (API ++ "generate_graph/") = .error e →
      (fetchGraph.run http s log).requests = log ++ [API ++ "generate_graph/"]) ∧
    (∀ r, http (API ++ "generate_graph/") = .ok r →
      (fetchGraph.run http s log).requests = log ++ [API ++ "generate_graph/", API] ∧
      ∀ (http' : String → Except AxiosError Response) (r' : Response),
        http' (API ++ "generate_graph/") = .ok r' → http' API = http API →
        (fetchGraph.run http' s log).result = (fetchGraph.run http s log).result ∧
        (fetchGraph.run http' s log).app.graph = (fetchGraph.run http s log).app.graph) := by
  refine ⟨by decide, by simp [step, fetchGraph, advance], ?_, ?_, ?_⟩
  · cases hgen : http (API ++ "generate_graph/") with
    | error e => exact ⟨[], by rw [run_fetchGraph_gen_error http s log e hgen]⟩
    | ok r =>
      cases hn : http API with
      | error e => exact ⟨[API], by rw [run_fetchGraph_nodes_error http s log r e hgen hn]⟩
      | ok n => exact ⟨[API], by rw [run_fetchGraph_ok http s log r n hgen hn]⟩
  · intro e hgen
    rw [run_fetchGraph_gen_error http s log e hgen]
  · intro r hgen
    cases hn : http API with
    | error e =>
      refine ⟨by rw [run_fetchGraph_nodes_error http s log r e hgen hn], ?_⟩
      intro http' r' hgen' hsame
      rw [run_fetchGraph_nodes_error http s log r e hgen hn,
        run_fetchGraph_nodes_error http' s log r' e hgen' hsame]
      exact ⟨rfl, rfl⟩
    | ok n =>
      refine ⟨by rw [run_fetchGraph_ok http s log r n hgen hn], ?_⟩
      intro http' r' hgen' hsame
      rw [run_fetchGraph_ok http s log r n hgen hn,
        run_fetchGraph_ok http' s log r' n hgen' hsame]
      exact ⟨rfl, rfl⟩

/-- One request on failure, two on success, and the generation body is ignored. -/
theorem fetchGraph_requests_in_sequence_witness :
    (fetchGraph.run http500 (App.start none) []).requests = [API ++ "generate_graph/"] ∧
    (fetchGraph.run (httpBoth .null twoNodes) (App.start none) []).requests =
      [API ++ "generate_graph/", API] ∧
    (fetchGraph.run (httpBoth (.str "done") twoNodes) (App.start none) []).app.graph =
      (fetchGraph.run (httpBoth .null twoNodes) (App.start none) []).app.graph :=
  ⟨(fetchGraph_requests_in_sequence http500 (App.start none) []).2.2.2.1 _ rfl,
   ((fetchGraph_requests_in_sequence (httpBoth .null twoNodes) (App.start none) []).2.2.2.2
      { data := .null } rfl).1,
   (((fetchGraph_requests_in_sequence (httpBoth .null twoNodes) (App.start none) []).2.2.2.2
      { data := .null } rfl).2 (httpBoth (.str "done") twoNodes) { data := .str "done" }
      rfl rfl).2⟩

/-! ## The event loop: what a turn leaves untouched -/

/-- Running `fetchGraph` code touches the graph and the requests in flight only. -/
theorem advance_keeps (a : Async) (s : App) :
    (advance a s).surface = s.surface ∧ (advance a s).scheduled = s.scheduled ∧
    (advance a s).frames = s.frames ∧ (advance a s).disposed = s.disposed ∧
    (advance a s).mountRef = s.mountRef ∧ (advance a s).errors = s.errors := by
  induction a generalizing s with
  | ret => simp [advance]
  | awaitGet url k _ => simp [advance]
  | setGraph g k ih =>
    have h := ih (setGraph g s)
    simpa [advance, setGraph, graphEffect] using h

/-- Running `fetchGraph` code until it suspends adds at most one request. -/
theorem advance_inflight_le (a : Async) (s : App) :
    (advance a s).inflight.length ≤ s.inflight.length + 1 := by
  induction a generalizing s with
  | ret => simp [advance]
  | awaitGet url k _ => simp [advance]
  | setGraph g k ih =>
    have h := ih (setGraph g s)
    simpa [advance, setGraph, graphEffect] using h

/-- No turn of the event loop replaces the scene, the camera or the renderer. -/
theorem step_surface (s : App) (e : Event) : (step s e).surface = s.surface := by
  cases e with
  | click => exact (advance_keeps _ _).1
  | settle i r =>
    simp only [step]
    split
    · rfl
    · cases r with
      | ok resp => exact (advance_keeps _ _).1
      | error e => rfl
  | frame =>
    simp only [step, animate]
    split
    · split <;> simp_all
    · rfl
  | resize w h => simp only [step]; split <;> rfl
  | refDetach => rfl
  | unmount =>
    simp only [step, cleanup]
    split
    · rfl
    · split
      · rfl
      · split <;> rfl

/-- A property kept by every turn holds after any sequence of events. -/
theorem runEvents_invariant (P : App → Prop) (hstep : ∀ s e, P s → P (step s e))
    (s : App) (es : List Event) (h : P s) : P (runEvents s es) := by
  induction es generalizing s with
  | nil => exact h
  | cons e es ih => exact ih (step s e) (hstep s e h)

/-- Running a concatenation is running its parts one after the other. -/
theorem runEvents_append (s : App) (es1 es2 : List Event) :
    runEvents s (es1 ++ es2) = runEvents (runEvents s es1) es2 := by
  simp [runEvents, List.foldl_append]

/-- No sequence of events replaces the scene, the camera or the renderer. -/
theorem runEvents_surface (s : App) (es : List Event) :
    (runEvents s es).surface = s.surface :=
  runEvents_invariant (fun t => t.surface = s.surface)
    (fun t e h => (step_surface t e).trans h) s es rfl

/-- The two readings of `fetchGraph` agree: a click followed by the settlement of its
two requests, with nothing else in flight, ends with the graph of the run to completion. -/
theorem events_agree_with_run (http : String → Except AxiosError Response) (s : App)
    (h : s.inflight = []) :
    (runEvents s [.click, .settle 0 (http (API ++ "generate_graph/")),
      .settle 0 (http API)]).graph = (fetchGraph.run http s []).app.graph := by
  cases hgen : http (API ++ "generate_graph/") with
  | error e =>
    simp [runEvents, step, advance, fetchGraph, Async.run, h, hgen]
  | ok r =>
    cases hn : http API with
    | error e =>
      simp [runEvents, step, advance, fetchGraph, Async.run, h, hgen, hn]
    | ok n =>
      simp [runEvents, step, advance, fetchGraph, Async.run, h, hgen, hn, setGraph, graphEffect]

/-- A turn either leaves the frame log alone or is an animation frame that appends one
rendering of the unchanged surface. -/
theorem step_frames (s : App) (e : Event) :
    (step s e).frames = s.frames ∨
    ∃ surf, s.surface = some surf ∧
      (step s e).frames = s.frames ++ [render surf s.mountRef s.disposed] := by
  cases e with
  | click => exact Or.inl (advance_keeps _ _).2.2.1
  | settle i r =>
    left
    simp only [step]
    split
    · rfl
    · cases r with
      | ok resp => exact (advance_keeps _ _).2.2.1
      | error e => rfl
  | frame =>
    simp only [step, animate]
    split
    · cases hs : s.surface with
      | none => left; simp
      | some surf => right; exact ⟨surf, rfl, by simp⟩
    · exact Or.inl rfl
  | resize w h => left; simp only [step]; split <;> rfl
  | refDetach => exact Or.inl rfl
  | unmount =>
    left
    simp only [step, cleanup]
    split
    · rfl
    · split
      · rfl
      · split <;> rfl

/-- With a surface, a scheduled `animate` stays scheduled through every turn. -/
theorem step_scheduled (s : App) (e : Event) (hsurf : s.surface.isSome = true)
    (h : s.scheduled = true) : (step s e).scheduled = true := by
  cases e with
  | click => exact (advance_keeps _ _).2.1.trans h
  | settle i r =>
    simp only [step]
    split
    · exact h
    · cases r with
      | ok resp => exact (advance_keeps _ _).2.1.trans h
      | error e => exact h
  | frame =>
    cases hs : s.surface with
    | none => simp [hs] at hsurf
    | some surf => simp [step, animate, h, hs]
  | resize w h' => simp only [step]; split <;> exact h
  | refDetach => exact h
  | unmount =>
    simp only [step, cleanup]
    split
    · exact h
    · split
      · exact h
      · split <;> exact h

/-- Once the cleanup has run, no turn undoes it. -/
theorem step_disposed (s : App) (e : Event) (h : s.disposed = true) :
    (step s e).disposed = true := by
  cases e with
  | click => exact (advance_keeps _ _).2.2.2.1.trans h
  | settle i r =>
    simp only [step]
    split
    · exact h
    · cases r with
      | ok resp => exact (advance_keeps _ _).2.2.2.1.trans h
      | error e => exact h
  | frame =>
    simp only [step, animate]
    split
    · split <;> exact h
    · exact h
  | resize w h' => simp only [step]; split <;> exact h
  | refDetach => exact h
  | unmount => simp [step, h]

/-- With a surface, the `unmount` turn leaves the cleanup flag set. -/
theorem step_unmount_disposed (s : App) (hsurf : s.surface.isSome = true) :
    (step s .unmount).disposed = true := by
  cases hd : s.disposed with
  | true => simp [step, hd]
  | false =>
    cases hs : s.surface with
    | none => simp [hs] at hsurf
    | some surf =>
      cases hm : s.mountRef <;> simp [step, cleanup, hd, hs, hm]

/-- With a surface and `animate` scheduled, an animation frame renders once more. -/
theorem step_frame_renders (s : App) (surf : Surface) (hsurf : s.surface = some surf)
    (h : s.scheduled = true) :
    (step s .frame).frames = s.frames ++ [render surf s.mountRef s.disposed] := by
  simp [step, animate, h, hsurf]

/-- The mounting effect of a component with a container. -/
theorem start_some (el : Element) :
    App.start (some el) =
      { graph := Graph.empty
        mountRef := some { el with hasCanvas := true }
        surface := some { scene := { children := [] }
                          camera := { fov := 75
                                      aspect := { width := el.clientWidth
                                                  height := el.clientHeight }
                                      far := 1000
                                      positionZ := 20 }
                          renderer := { width := el.clientWidth, height := el.clientHeight } }
        scheduled := true
        frames := [{ width := el.clientWidth, height := el.clientHeight
                     aspect := { width := el.clientWidth, height := el.clientHeight }
                     children := []
                     container := some { el with hasCanvas := true }
                     disposed := false }]
        disposed := false
        inflight := []
        errors := [] } := rfl

/-- Without a container nothing is allocated. -/
theorem start_none : App.start none = App.init none := rfl

/-! ## Disposal and the frame loop -/

/-- After mounting with a container the surface exists and `animate` is scheduled, and
this stays so through any sequence of events. -/
theorem runEvents_looping (el : Element) (es : List Event) :
    (runEvents (App.start (some el)) es).surface.isSome = true ∧
    (runEvents (App.start (some el)) es).scheduled = true :=
  runEvents_invariant (fun t => t.surface.isSome = true ∧ t.scheduled = true)
    (fun t e h => ⟨by rw [step_surface]; exact h.1, step_scheduled t e h.1 h.2⟩)
    (App.start (some el)) es ⟨rfl, rfl⟩

/-- C4, as stated, fails: after the cleanup has run on a component mounted in an 800x600
container, `animate` is still scheduled, and the next animation frame calls
`renderer.render` a second time (the first call was made while mounting) and
schedules `animate` again. -/
theorem frames_after_dispose_counterexample :
    (runEvents (App.start (some el0)) [.unmount]).disposed = true ∧
    (runEvents (App.start (some el0)) [.unmount]).scheduled = true ∧
    (runEvents (App.start (some el0)) [.unmount]).frames.length = 1 ∧
    (runEvents (App.start (some el0)) [.unmount, .frame]).frames.length = 2 ∧
    (runEvents (App.start (some el0)) [.unmount, .frame]).frames.map (fun f => f.disposed)
      = [false, true] ∧
    (runEvents (App.start (some el0)) [.unmount, .frame]).scheduled = true := by
  decide

/-- C4, amended: the cleanup does not stop the frame loop. In every state reached after
the cleanup has run (any events before it, any events after it), `animate` is still
scheduled, and a further animation frame calls `renderer.render` once more, on a
disposed component, and leaves `animate` scheduled again. -/
theorem frame_loop_survives_dispose (el : Element) (es1 es2 : List Event) :
    (runEvents (App.start (some el)) (es1 ++ .unmount :: es2)).disposed = true ∧
    (runEvents (App.start (some el)) (es1 ++ .unmount :: es2)).scheduled = true ∧
    (∃ f, (step (runEvents (App.start (some el)) (es1 ++ .unmount :: es2)) .frame).frames =
        (runEvents (App.start (some el)) (es1 ++ .unmount :: es2)).frames ++ [f] ∧
      f.disposed = true) ∧
    (step (runEvents (App.start (some el)) (es1 ++ .unmount :: es2)) .frame).scheduled = true := by
  have hloop := runEvents_looping el (es1 ++ .unmount :: es2)
  have hdisp : (runEvents (App.start (some el)) (es1 ++ .unmount :: es2)).disposed = true := by
    rw [runEvents_append]
    exact runEvents_invariant (fun t => t.disposed = true) step_disposed _ es2
      (step_unmount_disposed _ (runEvents_looping el es1).1)
  refine ⟨hdisp, hloop.2, ?_, step_scheduled _ _ hloop.1 hloop.2⟩
  cases hs : (runEvents (App.start (some el)) (es1 ++ .unmount :: es2)).surface with
  | none => simp [hs] at hloop
  | some surf => exact ⟨_, step_frame_renders _ surf hs hloop.2, hdisp⟩

/-! ## Resizing -/

/-- C8, as stated, fails: mounted in an 800x600 container that is then resized to
1024x768, the next frame is rendered while running on a surface of 800x600 with the
aspect 800/600, not on the container's current 1024x768. -/
theorem stale_size_counterexample :
    (runEvents (App.start (some el0)) [.resize 1024 768, .frame]).frames.map
        (fun f => (f.width, f.height, f.aspect.width, f.aspect.height,
          f.container.map (fun c => (c.clientWidth, c.clientHeight)), f.disposed)) =
      [(800, 600, 800, 600, some (800, 600), false),
       (800, 600, 800, 600, some (1024, 768), false)] :=
  rfl

/-- C8, amended: the surface is sized once, by the mounting effect. Every frame rendered,
including every frame after the container's width or height has changed, has the
surface dimensions of the container's width and height at mounting time, and the
camera aspect is the quotient of those two values. -/
theorem surface_sized_at_mount (el : Element) (es : List Event) (f : Frame)
    (hf : f ∈ (runEvents (App.start (some el)) es).frames) :
    f.width = el.clientWidth ∧ f.height = el.clientHeight ∧
    f.aspect = { width := el.clientWidth, height := el.clientHeight } := by
  have key := runEvents_invariant
    (fun t => t.surface = (App.start (some el)).surface ∧
      ∀ g ∈ t.frames, g.width = el.clientWidth ∧ g.height = el.clientHeight ∧
        g.aspect = { width := el.clientWidth, height := el.clientHeight })
    (fun t e h => by
      refine ⟨(step_surface t e).trans h.1, ?_⟩
      rcases step_frames t e with hfr | ⟨surf, hsurf, hfr⟩
      · rw [hfr]; exact h.2
      · rw [hfr]
        intro g hg
        rcases List.mem_append.1 hg with hg | hg
        · exact h.2 g hg
        · have hsurf' : surf = _ := Option.some.inj (hsurf.symm.trans h.1)
          rw [List.mem_singleton] at hg
          subst hg hsurf'
          exact ⟨rfl, rfl, rfl⟩)
    (App.start (some el)) es
    ⟨rfl, by
      intro g hg
      rw [start_some, List.mem_singleton] at hg
      subst hg
      exact ⟨rfl, rfl, rfl⟩⟩
  exact key.2 f hf

/-- The frame rendered after a resize from 800x600 to 1024x768 is still 800x600. -/
theorem surface_sized_at_mount_witness :
    (render { scene := { children := [] }
              camera := { fov := 75, aspect := { width := 800, height := 600 }, far := 1000
                          positionZ := 20 }
              renderer := { width := 800, height := 600 } }
        (some { clientWidth := 1024, clientHeight := 768, hasCanvas := true }) false).width = 800 ∧
    (render { scene := { children := [] }
              camera := { fov := 75, aspect := { width := 800, height := 600 }, far := 1000
                          positionZ := 20 }
              renderer := { width := 800, height := 600 } }
        (some { clientWidth := 1024, clientHeight := 768, hasCanvas := true }) false).height = 600 ∧
    (render { scene := { children := [] }
              camera := { fov := 75, aspect := { width := 800, height := 600 }, far := 1000
                          positionZ := 20 }
              renderer := { width := 800, height := 600 } }
        (some { clientWidth := 1024, clientHeight := 768, hasCanvas := true }) false).aspect =
      { width := 800, height := 600 } :=
  surface_sized_at_mount el0 [.resize 1024 768, .frame] _
    (List.Mem.tail _ (List.Mem.head _))

/-! ## Requests in flight -/

/-- Counting invocations event by event. -/
theorem clicks_cons (e : Event) (es : List Event) : clicks (e :: es) = clicks [e] + clicks es := by
  cases e <;> simp [clicks, List.filter_cons]
  omega

/-- A turn adds a request only when it is a `click`, and then just one. -/
theorem step_inflight_le (s : App) (e : Event) :
    (step s e).inflight.length ≤ s.inflight.length + clicks [e] := by
  cases e with
  | click => simpa [clicks] using advance_inflight_le fetchGraph s
  | settle i r =>
    simp only [step]
    split
    · simp
    · rename_i p hp
      have hi : i < s.inflight.length := by
        rcases List.get?_eq_some.1 hp with ⟨h, _⟩
        exact h
      have hlen := List.length_eraseIdx_of_lt hi
      cases r with
      | ok resp =>
        have h := advance_inflight_le (p.k resp) { s with inflight := s.inflight.eraseIdx i }
        simp only [] at h ⊢
        omega
      | error e => simp only []; omega
  | frame =>
    simp only [step, animate]
    split
    · split <;> simp
    · simp
  | resize w h => simp only [step]; split <;> simp
  | refDetach => simp [step]
  | unmount =>
    simp only [step, cleanup]
    split
    · simp
    · split
      · simp
      · split <;> simp

/-- Requests in flight grow by at most the number of invocations. -/
theorem runEvents_inflight_le (s : App) (es : List Event) :
    (runEvents s es).inflight.length ≤ s.inflight.length + clicks es := by
  induction es generalizing s with
  | nil => simp [runEvents]
  | cons e es ih =>
    have h1 := ih (step s e)
    have h2 := step_inflight_le s e
    have h3 := clicks_cons e es
    have h4 : runEvents s (e :: es) = runEvents (step s e) es := rfl
    rw [h4]
    omega

/-- No request is in flight after mounting. -/
theorem start_inflight (ref : Option Element) : (App.start ref).inflight = [] := by
  cases ref <;> rfl

/-- Every invocation of `fetchGraph` adds its own request to `generate_graph/`. -/
theorem inflightTo_clicks (s : App) (k : Nat) :
    inflightTo (API ++ "generate_graph/") (runEvents s (List.replicate k .click)) =
      inflightTo (API ++ "generate_graph/") s + k := by
  induction k generalizing s with
  | zero => simp [runEvents]
  | succ k ih =>
    have h4 : runEvents s (List.replicate (k + 1) .click) =
        runEvents (step s .click) (List.replicate k .click) := rfl
    rw [h4, ih]
    simp [inflightTo, step, fetchGraph, advance, List.filter_append]
    omega

/-- C6, as stated, fails: two invocations of `fetchGraph` with no completion in between
leave two requests to `generate_graph/` in flight at once. -/
theorem overlapping_requests_counterexample :
    inflightTo (API ++ "generate_graph/") (runEvents (App.start (some el0)) [.click, .click]) = 2 ∧
    (runEvents (App.start (some el0)) [.click, .click]).inflight.map (fun p => p.url) =
      [API ++ "generate_graph/", API ++ "generate_graph/"] := by
  decide

/-- C6, amended: `fetchGraph` neither coalesces nor queues. Each invocation has at most
one request in flight, so in every interleaving of invocations and completions the
number of requests in flight is at most the number of invocations made; and `k`
invocations made before any request completes put `k` overlapping requests to
`generate_graph/` in flight. -/
theorem inflight_bounded_by_invocations (ref : Option Element) (es : List Event) (k : Nat) :
    (runEvents (App.start ref) es).inflight.length ≤ clicks es ∧
    inflightTo (API ++ "generate_graph/")
      (runEvents (App.start ref) (List.replicate k .click)) = k := by
  constructor
  · have h := runEvents_inflight_le (App.start ref) es
    rw [start_inflight] at h
    simpa using h
  · rw [inflightTo_clicks]
    simp [inflightTo, start_inflight]

/-! ## The graph effect and the scene -/

/-- The scene is created empty. -/
theorem start_primitives (ref : Option Element) : primitives (App.start ref) = [] := by
  cases ref <;> rfl

/-- Nothing is ever added to the scene. -/
theorem runEvents_primitives (ref : Option Element) (es : List Event) :
    primitives (runEvents (App.start ref) es) = [] := by
  have h : primitives (runEvents (App.start ref) es) = primitives (App.start ref) := by
    simp only [primitives, runEvents_surface]
  rw [h, start_primitives]

/-- C5 fails on the code: after the component is mounted in a container and a fetch has
installed the two-node list `[{id:1,x:0,y:0,z:0},{id:2,x:5,y:0,z:0}]`, the graph effect
has run on a running renderer, yet the scene holds no node primitive (and no link
primitive), and the frame rendered next draws nothing. -/
theorem two_nodes_render_nothing :
    (runEvents (App.start (some el0))
      [.click, .settle 0 (.ok { data := .null }), .settle 0 (.ok { data := twoNodes })]).graph
        = { nodes := twoNodes, links := [] } ∧
    nodeCount twoNodes = 2 ∧
    (runEvents (App.start (some el0))
      [.click, .settle 0 (.ok { data := .null }), .settle 0 (.ok { data := twoNodes })]).disposed
        = false ∧
    ((primitives (runEvents (App.start (some el0))
      [.click, .settle 0 (.ok { data := .null }), .settle 0 (.ok { data := twoNodes })])).filter
        Primitive.isNode).length = 0 ∧
    ((primitives (runEvents (App.start (some el0))
      [.click, .settle 0 (.ok { data := .null }), .settle 0 (.ok { data := twoNodes })])).filter
        Primitive.isLink).length = 0 ∧
    (runEvents (App.start (some el0))
      [.click, .settle 0 (.ok { data := .null }), .settle 0 (.ok { data := twoNodes }),
        .frame]).frames.map (fun f => f.children.length) = [0, 0] :=
  ⟨rfl, rfl, rfl, rfl, rfl, rfl⟩

/-- C7: in every state reachable from the mounted component through clicks, request
completions (successful or failed), frames, resizes and the cleanup, the scene holds
no link primitive with an endpoint that is not a node of the current graph; and the
graph effect raises no error. -/
theorem no_dangling_link_rendered (ref : Option Element) (es : List Event) :
    noDanglingLink (primitives (runEvents (App.start ref) es))
      (runEvents (App.start ref) es).graph ∧
    (graphEffect (runEvents (App.start ref) es)).errors = (runEvents (App.start ref) es).errors := by
  refine ⟨?_, rfl⟩
  intro a b hmem
  rw [runEvents_primitives] at hmem
  cases hmem

/-- C9: applying the graph update for `G` twice leaves the same set of visual primitives,
and indeed the same component state, as applying it once. -/
theorem setGraph_idempotent (G : Graph) (s : App) :
    primitives (setGraph G (setGraph G s)) = primitives (setGraph G s) ∧
    setGraph G (setGraph G s) = setGraph G s ∧
    graphEffect (graphEffect (setGraph G s)) = graphEffect (setGraph G s) :=
  ⟨rfl, rfl, rfl⟩

end Aqarions
